import Mathlib

/-!
# hyprvoice: `internal/notify/notify.go`

A shallow embedding of the notification backends (`Desktop`, `Log`, `Nop`) and
of the selector `GetNotifierBasedOnConfig`, followed by theorems about them.

The two effects of the package are made explicit in a `World`:

* `commands`: every external command that was run (`exec.Command(..).Run()`),
  in order;
* `log`: every message handed to the process logger (`log.Printf`), in order.
  The logger's own header (date, time) and the trailing newline it appends are
  not part of the message and are not modelled.

The outcome of running an external command is not decided by the package; it is
a parameter (`Runner`) of every operation that runs one.
-/

namespace Notify

/-! ## The fragment of `fmt` used by the package -/

/-- An operand of a formatting call. An `err` operand is a non-nil Go `error`,
represented by the text its `Error()` method returns. -/
inductive Arg where
  | str (s : String)
  | int (n : Int)
  | err (msg : String)
  deriving DecidableEq, Repr

/-- Decimal rendering of a Go `int`, as the `d` verb prints it. -/
def formatInt : Int → String
  | Int.ofNat n => Nat.repr n
  | Int.negSucc n => "-" ++ Nat.repr (n + 1)

/-- Rendering of one operand under one verb. The package uses `s` on strings,
`d` on ints and `v` on errors; `v` on strings and ints and `s` on errors print
the same text. Every other combination is outside the modelled fragment
(`none`). -/
def formatArg (verb : Char) (a : Arg) : Option (List Char) :=
  match a with
  | Arg.str s => if verb = 's' ∨ verb = 'v' then some s.data else none
  | Arg.int n => if verb = 'd' ∨ verb = 'v' then some (formatInt n).data else none
  | Arg.err e => if verb = 's' ∨ verb = 'v' then some e.data else none

/-- The scanning loop of `fmt.Sprintf`: text up to a percent sign is copied,
a doubled percent sign prints one, and a percent sign followed by a verb
consumes the next operand. Operands are inserted as they are; they are never
scanned for verbs themselves. Flags, widths, a missing or a surplus operand and
a percent sign that ends the format are outside the modelled fragment
(`none`). -/
def doPrintf : List Char → List Arg → Option (List Char)
  | [], [] => some []
  | [], _ :: _ => none
  | [c], args =>
    if c = '%' then none
    else (doPrintf [] args).map (fun out => c :: out)
  | c :: v :: rest, args =>
    if c = '%' then
      if v = '%' then (doPrintf rest args).map (fun out => '%' :: out)
      else
        match args with
        | [] => none
        | a :: args' =>
          match formatArg v a, doPrintf rest args' with
          | some x, some out => some (x ++ out)
          | _, _ => none
    else (doPrintf (v :: rest) args).map (fun out => c :: out)

/-- Model of `fmt.Sprintf(format, args...)`. -/
def Sprintf (format : String) (args : List Arg) : Option String :=
  (doPrintf format.data args).map String.mk

/-! ## The world the package acts on -/

/-- An external command as built by `exec.Command(name, arg...)`. -/
structure Cmd where
  name : String
  arg : List String
  deriving DecidableEq, Repr

/-- The result of `cmd.Run()`: `none` for a nil error, `some e` for a non-nil
error whose `Error()` text is `e`. -/
abbrev Runner := Cmd → Option String

/-- Record of the package's effects. -/
structure World where
  commands : List Cmd
  log : List String
  deriving DecidableEq, Repr

/-- Model of `exec.Command`. -/
def execCommand (name : String) (arg : List String) : Cmd :=
  { name := name, arg := arg }

/-- Model of `cmd.Run()`: the command is recorded and its outcome returned. -/
def cmdRun (run : Runner) (cmd : Cmd) (w : World) : Option String × World :=
  (run cmd, { w with commands := w.commands ++ [cmd] })

/-- Model of `log.Printf(format, args...)`: the formatted message is appended to
the log. The result is `none` only when the format is outside the modelled
fragment of `fmt`. -/
def logPrintf (format : String) (args : List Arg) (w : World) : Option World :=
  (Sprintf format args).map (fun line => { w with log := w.log ++ [line] })

/-! ## `notify.go` -/

/-- Modelled from the spec: the type `config.Config` lives in the package
`internal/config`, which is not among the sources. Only the field path
`Notifications.Type`, a string selector, is read here; the field is named
`Type_` because `Type` is a reserved word. -/
structure NotificationsConfig where
  Type_ : String
  deriving DecidableEq, Repr

/-- Modelled from the spec: see `NotificationsConfig`. -/
structure Config where
  Notifications : NotificationsConfig
  deriving DecidableEq, Repr

/-- Run-time panics of the Go program. -/
inductive Panic where
  | nilPointerDereference
  deriving DecidableEq, Repr

/-- The constant `RecordingNotificationID`. -/
def RecordingNotificationID : Int := 9999

/-- The type `Desktop struct{}`. -/
structure Desktop where
  deriving DecidableEq, Repr

/-- The type `Log struct{}`. -/
structure Log where
  deriving DecidableEq, Repr

/-- The type `Nop struct{}`. -/
structure Nop where
  deriving DecidableEq, Repr

/-- A value of the interface `Notifier`: one of the three implementing types. -/
inductive Notifier where
  | desktop (d : Desktop)
  | log (l : Log)
  | nop (n : Nop)
  deriving DecidableEq, Repr

/-- The method `PersistentNotify` of `Desktop`. -/
def Desktop.PersistentNotify (_d : Desktop) (run : Runner)
    (title message : String) (replaceID : Int) (w : World) : Option World :=
  match Sprintf "%d" [Arg.int replaceID] with
  | none => none
  | some rid =>
    let cmd := execCommand "notify-send"
      ["-a", "Hyprvoice", "-r", rid, "-t", "0", title, message]
    match cmdRun run cmd w with
    | (some err, w1) =>
      logPrintf "Failed to send persistent notification: %v" [Arg.err err] w1
    | (none, w1) => some w1

/-- The method `RecordingStarted` of `Desktop`. -/
def Desktop.RecordingStarted (d : Desktop) (run : Runner) (w : World) : Option World :=
  d.PersistentNotify run "Hyprvoice" "🎤 Recording..." RecordingNotificationID w

/-- The method `Transcribing` of `Desktop`. -/
def Desktop.Transcribing (d : Desktop) (run : Runner) (w : World) : Option World :=
  d.PersistentNotify run "Hyprvoice" "⏳ Transcribing..." RecordingNotificationID w

/-- The method `RecordingComplete` of `Desktop`. -/
def Desktop.RecordingComplete (_d : Desktop) (run : Runner) (w : World) : Option World :=
  match Sprintf "%d" [Arg.int RecordingNotificationID] with
  | none => none
  | some rid =>
    let cmd := execCommand "notify-send"
      ["-a", "Hyprvoice", "-r", rid, "-t", "5000", "Hyprvoice", "✅ Complete"]
    match cmdRun run cmd w with
    | (some err, w1) =>
      logPrintf "Failed to send completion notification: %v" [Arg.err err] w1
    | (none, w1) => some w1

/-- The method `Error` of `Desktop`. -/
def Desktop.Error (_d : Desktop) (run : Runner) (msg : String) (w : World) : Option World :=
  let cmd := execCommand "notify-send"
    ["-a", "Hyprvoice", "-u", "critical", "Hyprvoice Error", msg]
  match cmdRun run cmd w with
  | (some err, w1) =>
    logPrintf "Failed to send error notification: %v" [Arg.err err] w1
  | (none, w1) => some w1

/-- The method `Notify` of `Desktop`. -/
def Desktop.Notify (_d : Desktop) (run : Runner) (title message : String)
    (w : World) : Option World :=
  let cmd := execCommand "notify-send" ["-a", "Hyprvoice", title, message]
  match cmdRun run cmd w with
  | (some err, w1) =>
    logPrintf "Failed to send notification: %v" [Arg.err err] w1
  | (none, w1) => some w1

/-- The method `Notify` of `Log`. -/
def Log.Notify (_l : Log) (title message : String) (w : World) : Option World :=
  logPrintf "%s: %s" [Arg.str title, Arg.str message] w

/-- The method `Error` of `Log`. -/
def Log.Error (l : Log) (msg : String) (w : World) : Option World :=
  l.Notify "Hyprvoice Error" msg w

/-- The method `RecordingStarted` of `Log`. -/
def Log.RecordingStarted (l : Log) (w : World) : Option World :=
  l.Notify "Hyprvoice" "🎤 Recording..." w

/-- The method `Transcribing` of `Log`. -/
def Log.Transcribing (l : Log) (w : World) : Option World :=
  l.Notify "Hyprvoice" "⏳ Transcribing..." w

/-- The method `RecordingComplete` of `Log`. -/
def Log.RecordingComplete (l : Log) (w : World) : Option World :=
  l.Notify "Hyprvoice" "✅ Complete" w

/-- The method `Error` of `Nop`: an empty body. -/
def Nop.Error (_n : Nop) (_msg : String) (w : World) : World := w

/-- The method `Notify` of `Nop`: an empty body. -/
def Nop.Notify (_n : Nop) (_title _message : String) (w : World) : World := w

/-- The method `RecordingStarted` of `Nop`: an empty body. -/
def Nop.RecordingStarted (_n : Nop) (w : World) : World := w

/-- The method `Transcribing` of `Nop`: an empty body. -/
def Nop.Transcribing (_n : Nop) (w : World) : World := w

/-- The method `RecordingComplete` of `Nop`: an empty body. -/
def Nop.RecordingComplete (_n : Nop) (w : World) : World := w

/-- The function `GetNotifierBasedOnConfig`. Its argument is a pointer: `none`
is the nil pointer, and reading a field through it panics. -/
def GetNotifierBasedOnConfig (c : Option Config) : Except Panic Notifier :=
  match c with
  | none => Except.error Panic.nilPointerDereference
  | some cfg =>
    if cfg.Notifications.Type_ = "desktop" then Except.ok (Notifier.desktop {})
    else if cfg.Notifications.Type_ = "log" then Except.ok (Notifier.log {})
    else if cfg.Notifications.Type_ = "none" then Except.ok (Notifier.nop {})
    else Except.ok (Notifier.nop {})

/-! ## Formatting lemmas -/

theorem doPrintf_text_then_verb (p : List Char) (hp : '%' ∉ p) (v : Char)
    (hv : v ≠ '%') (a : Arg) (x : List Char) (hx : formatArg v a = some x) :
    doPrintf (p ++ ['%', v]) [a] = some (p ++ x) := by
  induction p with
  | nil => simp [doPrintf, hv, hx]
  | cons c p ih =>
    have hc : c ≠ '%' := fun h => hp (by simp [h])
    have hp' : '%' ∉ p := fun h => hp (by simp [h])
    have ih' := ih hp'
    cases p with
    | nil => simp [doPrintf, hc, hv, hx]
    | cons d q =>
      simp only [List.cons_append] at ih' ⊢
      simp [doPrintf, hc, ih']

theorem Sprintf_d (n : Int) : Sprintf "%d" [Arg.int n] = some (formatInt n) := by
  simp [Sprintf, doPrintf, formatArg]

theorem Sprintf_text_v (text : String) (hp : '%' ∉ text.data) (e : String) :
    Sprintf (text ++ "%v") [Arg.err e] = some (text ++ e) := by
  have h := doPrintf_text_then_verb text.data hp 'v' (by decide) (Arg.err e) e.data
    (by simp [formatArg])
  have hd : (text ++ "%v").data = text.data ++ ['%', 'v'] := by
    rw [String.data_append]
  simp only [Sprintf, hd, h, Option.map_some']
  congr 1

theorem Sprintf_s_colon_s (title message : String) :
    Sprintf "%s: %s" [Arg.str title, Arg.str message]
      = some (title ++ ": " ++ message) := by
  have hd : "%s: %s".data = ['%', 's', ':', ' ', '%', 's'] := rfl
  simp only [Sprintf, hd]
  simp [doPrintf, formatArg]
  apply String.ext
  simp [String.data_append]

theorem formatInt_RecordingNotificationID :
    formatInt RecordingNotificationID = "9999" := by decide

/-! ## What each operation does to the world -/

/-- The world after a command was run and, if it failed, the failure logged. -/
theorem run_then_log (run : Runner) (cmd : Cmd) (w : World) (text : String)
    (hp : '%' ∉ text.data) :
    (match cmdRun run cmd w with
      | (some err, w1) => logPrintf (text ++ "%v") [Arg.err err] w1
      | (none, w1) => some w1)
    = some { commands := w.commands ++ [cmd],
             log := match run cmd with
               | some e => w.log ++ [text ++ e]
               | none => w.log } := by
  cases h : run cmd with
  | none => simp [cmdRun, h]
  | some e => simp [cmdRun, h, logPrintf, Sprintf_text_v text hp e]

theorem Desktop_PersistentNotify_result (d : Desktop) (run : Runner)
    (title message : String) (replaceID : Int) (w : World) :
    d.PersistentNotify run title message replaceID w
    = some { commands := w.commands ++ [⟨"notify-send",
               ["-a", "Hyprvoice", "-r", formatInt replaceID, "-t", "0", title, message]⟩],
             log := match run ⟨"notify-send",
               ["-a", "Hyprvoice", "-r", formatInt replaceID, "-t", "0", title, message]⟩ with
               | some e => w.log ++ ["Failed to send persistent notification: " ++ e]
               | none => w.log } := by
  unfold Desktop.PersistentNotify
  rw [Sprintf_d]
  exact run_then_log run _ w "Failed to send persistent notification: " (by decide)

theorem Desktop_RecordingComplete_result (d : Desktop) (run : Runner) (w : World) :
    d.RecordingComplete run w
    = some { commands := w.commands ++ [⟨"notify-send",
               ["-a", "Hyprvoice", "-r", "9999", "-t", "5000", "Hyprvoice", "✅ Complete"]⟩],
             log := match run ⟨"notify-send",
               ["-a", "Hyprvoice", "-r", "9999", "-t", "5000", "Hyprvoice", "✅ Complete"]⟩ with
               | some e => w.log ++ ["Failed to send completion notification: " ++ e]
               | none => w.log } := by
  unfold Desktop.RecordingComplete
  rw [Sprintf_d, formatInt_RecordingNotificationID]
  exact run_then_log run _ w "Failed to send completion notification: " (by decide)

theorem Desktop_Error_result (d : Desktop) (run : Runner) (msg : String) (w : World) :
    d.Error run msg w
    = some { commands := w.commands ++ [⟨"notify-send",
               ["-a", "Hyprvoice", "-u", "critical", "Hyprvoice Error", msg]⟩],
             log := match run ⟨"notify-send",
               ["-a", "Hyprvoice", "-u", "critical", "Hyprvoice Error", msg]⟩ with
               | some e => w.log ++ ["Failed to send error notification: " ++ e]
               | none => w.log } := by
  unfold Desktop.Error
  exact run_then_log run _ w "Failed to send error notification: " (by decide)

theorem Desktop_Notify_result (d : Desktop) (run : Runner) (title message : String)
    (w : World) :
    d.Notify run title message w
    = some { commands := w.commands ++ [⟨"notify-send",
               ["-a", "Hyprvoice", title, message]⟩],
             log := match run ⟨"notify-send", ["-a", "Hyprvoice", title, message]⟩ with
               | some e => w.log ++ ["Failed to send notification: " ++ e]
               | none => w.log } := by
  unfold Desktop.Notify
  exact run_then_log run _ w "Failed to send notification: " (by decide)

theorem Log_Notify_result (l : Log) (title message : String) (w : World) :
    l.Notify title message w
    = some { commands := w.commands, log := w.log ++ [title ++ ": " ++ message] } := by
  simp [Log.Notify, logPrintf, Sprintf_s_colon_s]

/-- Sample evaluations of the formatter: operands are inserted verbatim, and a
missing or surplus operand leaves the modelled fragment. -/
theorem Sprintf_samples :
    Sprintf "%d" [Arg.int (-12)] = some "-12"
    ∧ Sprintf "a%%b %s: %v" [Arg.str "x%sy", Arg.err "%d"] = some "a%b x%sy: %d"
    ∧ Sprintf "%s" [] = none
    ∧ Sprintf "x" [Arg.int 1] = none := by decide

/-! ## The selector -/

/-- C1: for every selector string `s`, `GetNotifierBasedOnConfig` on a
configuration whose `Notifications.Type` is `s` returns the Desktop variant when
`s` is "desktop", the Log variant when `s` is "log", and the Nop variant
otherwise; in particular Nop for "none", for the empty string and for the
variations "Desktop" and "log ". -/
theorem GetNotifierBasedOnConfig_by_type (s : String) :
    GetNotifierBasedOnConfig (some ⟨⟨s⟩⟩)
      = Except.ok (if s = "desktop" then Notifier.desktop {}
                   else if s = "log" then Notifier.log {}
                   else Notifier.nop {})
    ∧ GetNotifierBasedOnConfig (some ⟨⟨"desktop"⟩⟩) = Except.ok (Notifier.desktop {})
    ∧ GetNotifierBasedOnConfig (some ⟨⟨"log"⟩⟩) = Except.ok (Notifier.log {})
    ∧ GetNotifierBasedOnConfig (some ⟨⟨"none"⟩⟩) = Except.ok (Notifier.nop {})
    ∧ GetNotifierBasedOnConfig (some ⟨⟨""⟩⟩) = Except.ok (Notifier.nop {})
    ∧ GetNotifierBasedOnConfig (some ⟨⟨"Desktop"⟩⟩) = Except.ok (Notifier.nop {})
    ∧ GetNotifierBasedOnConfig (some ⟨⟨"log "⟩⟩) = Except.ok (Notifier.nop {}) := by
  refine ⟨?_, rfl, rfl, rfl, rfl, rfl, rfl⟩
  unfold GetNotifierBasedOnConfig
  by_cases h1 : s = "desktop"
  · simp [h1]
  · by_cases h2 : s = "log"
    · simp [h2]
    · by_cases h3 : s = "none" <;> simp [h1, h2, h3]

/-- C2, as the code has it: on every configuration value (a non-nil pointer)
`GetNotifierBasedOnConfig` returns a notifier and does not panic, whatever the
selector string is. -/
theorem GetNotifierBasedOnConfig_total_on_config (c : Config) :
    ∃ n : Notifier, GetNotifierBasedOnConfig (some c) = Except.ok n := by
  unfold GetNotifierBasedOnConfig
  by_cases h1 : c.Notifications.Type_ = "desktop"
  · exact ⟨Notifier.desktop {}, by simp [h1]⟩
  · by_cases h2 : c.Notifications.Type_ = "log"
    · exact ⟨Notifier.log {}, by simp [h2]⟩
    · exact ⟨Notifier.nop {}, by
        by_cases h3 : c.Notifications.Type_ = "none" <;> simp [h1, h2, h3]⟩

/-- C2 fails at the nil pointer: reading `c.Notifications.Type` through a nil
`c` panics, so no notifier is returned. -/
theorem GetNotifierBasedOnConfig_nil_panics :
    GetNotifierBasedOnConfig none = Except.error Panic.nilPointerDereference
    ∧ ¬ ∃ n : Notifier, GetNotifierBasedOnConfig none = Except.ok n := by
  refine ⟨rfl, ?_⟩
  rintro ⟨n, h⟩
  simp [GetNotifierBasedOnConfig] at h

/-! ## The Desktop variant -/

/-- C3: `Desktop.RecordingStarted` and `Desktop.Transcribing` each run
`notify-send` with the arguments `-a Hyprvoice -r 9999 -t 0 Hyprvoice body`,
where body is the recording text and the transcribing text respectively, and
"9999" is the decimal rendering of `RecordingNotificationID`. -/
theorem Desktop_persistent_lifecycle_command (d : Desktop) (run : Runner) (w : World) :
    (∃ w1, d.RecordingStarted run w = some w1 ∧
      w1.commands = w.commands ++ [⟨"notify-send",
        ["-a", "Hyprvoice", "-r", "9999", "-t", "0", "Hyprvoice", "🎤 Recording..."]⟩])
    ∧ (∃ w2, d.Transcribing run w = some w2 ∧
      w2.commands = w.commands ++ [⟨"notify-send",
        ["-a", "Hyprvoice", "-r", "9999", "-t", "0", "Hyprvoice", "⏳ Transcribing..."]⟩])
    ∧ Sprintf "%d" [Arg.int RecordingNotificationID] = some "9999" := by
  refine ⟨⟨_, Desktop_PersistentNotify_result d run _ _ _ w, ?_⟩,
    ⟨_, Desktop_PersistentNotify_result d run _ _ _ w, ?_⟩, ?_⟩
  · simp [formatInt_RecordingNotificationID]
  · simp [formatInt_RecordingNotificationID]
  · rw [Sprintf_d, formatInt_RecordingNotificationID]

/-- C4: `Desktop.RecordingComplete` runs `notify-send` with the arguments
`-a Hyprvoice -r 9999 -t 5000 Hyprvoice` and the completion text, and the
argument that follows `-r` is the same in the commands of `RecordingStarted`,
`Transcribing` and `RecordingComplete`. -/
theorem Desktop_RecordingComplete_command (d : Desktop) (run : Runner) (w : World) :
    ∃ w3 c1 c2 c3 w1 w2,
      d.RecordingComplete run w = some w3
      ∧ w3.commands = w.commands ++ [c3]
      ∧ c3 = ⟨"notify-send",
          ["-a", "Hyprvoice", "-r", "9999", "-t", "5000", "Hyprvoice", "✅ Complete"]⟩
      ∧ d.RecordingStarted run w = some w1 ∧ w1.commands = w.commands ++ [c1]
      ∧ d.Transcribing run w = some w2 ∧ w2.commands = w.commands ++ [c2]
      ∧ c1.arg.take 3 = ["-a", "Hyprvoice", "-r"]
      ∧ c2.arg.take 3 = ["-a", "Hyprvoice", "-r"]
      ∧ c3.arg.take 3 = ["-a", "Hyprvoice", "-r"]
      ∧ c1.arg[3]? = some "9999" ∧ c2.arg[3]? = some "9999" ∧ c3.arg[3]? = some "9999" := by
  refine ⟨_, _, _, _, _, _, Desktop_RecordingComplete_result d run w, rfl, rfl,
    Desktop_PersistentNotify_result d run _ _ _ w, rfl,
    Desktop_PersistentNotify_result d run _ _ _ w, rfl, ?_⟩
  simp [formatInt_RecordingNotificationID]

/-- C5, as the code has it: for every message, `Desktop.Error` runs
`notify-send` with exactly the arguments `-a Hyprvoice -u critical`, the title
"Hyprvoice Error" and the message. The code adds no `-r` and no `-t` of its own
(none stands before the final argument); the list holds `-r` or `-t` exactly
when the message itself is that string. -/
theorem Desktop_Error_command (d : Desktop) (run : Runner) (msg : String) (w : World) :
    ∃ w1 c, d.Error run msg w = some w1
      ∧ w1.commands = w.commands ++ [c]
      ∧ c.name = "notify-send"
      ∧ c.arg = ["-a", "Hyprvoice", "-u", "critical", "Hyprvoice Error", msg]
      ∧ "-r" ∉ c.arg.dropLast ∧ "-t" ∉ c.arg.dropLast
      ∧ ("-r" ∈ c.arg ↔ msg = "-r") ∧ ("-t" ∈ c.arg ↔ msg = "-t") := by
  refine ⟨_, _, Desktop_Error_result d run msg w, rfl, rfl, rfl, ?_, ?_, ?_, ?_⟩
  · simp
  · simp
  · constructor
    · intro h
      exact (by simpa using h : _ = msg).symm
    · intro h
      simp [h]
  · constructor
    · intro h
      exact (by simpa using h : _ = msg).symm
    · intro h
      simp [h]

/-- C5 fails when the message is itself "-r": the argument list of the command
then contains "-r". -/
theorem Desktop_Error_message_dash_r :
    ∃ c, Desktop.Error {} (fun _ => none) "-r" ⟨[], []⟩ = some ⟨[c], []⟩
      ∧ c.arg = ["-a", "Hyprvoice", "-u", "critical", "Hyprvoice Error", "-r"]
      ∧ "-r" ∈ c.arg :=
  ⟨⟨"notify-send", ["-a", "Hyprvoice", "-u", "critical", "Hyprvoice Error", "-r"]⟩,
    by decide, rfl, by decide⟩

/-- C6, as the code has it: for every title and message, `Desktop.Notify` runs
`notify-send` with exactly the arguments `-a Hyprvoice title message`. The code
adds no `-u`, `-r` or `-t` of its own; the list holds one of them exactly when
the title or the message itself is that string. -/
theorem Desktop_Notify_command (d : Desktop) (run : Runner) (title message : String)
    (w : World) :
    ∃ w1 c, d.Notify run title message w = some w1
      ∧ w1.commands = w.commands ++ [c]
      ∧ c.name = "notify-send"
      ∧ c.arg = ["-a", "Hyprvoice", title, message]
      ∧ c.arg.take 2 = ["-a", "Hyprvoice"]
      ∧ c.arg.drop 2 = [title, message]
      ∧ ("-u" ∈ c.arg ↔ title = "-u" ∨ message = "-u")
      ∧ ("-r" ∈ c.arg ↔ title = "-r" ∨ message = "-r")
      ∧ ("-t" ∈ c.arg ↔ title = "-t" ∨ message = "-t") := by
  have key : ∀ o : String, o ≠ "-a" → o ≠ "Hyprvoice" →
      (o ∈ ["-a", "Hyprvoice", title, message] ↔ title = o ∨ message = o) := by
    intro o ha hh
    simp only [List.mem_cons, List.mem_singleton, List.not_mem_nil, or_false, ha, hh,
      false_or]
    constructor
    · rintro (h | h)
      · exact Or.inl h.symm
      · exact Or.inr h.symm
    · rintro (h | h)
      · exact Or.inl h.symm
      · exact Or.inr h.symm
  exact ⟨_, _, Desktop_Notify_result d run title message w, rfl, rfl, rfl, rfl, rfl,
    key "-u" (by decide) (by decide), key "-r" (by decide) (by decide),
    key "-t" (by decide) (by decide)⟩

/-- C6 fails when the title is "-u" and the message "critical": the argument
list of the command is then `-a Hyprvoice -u critical`, which contains "-u". -/
theorem Desktop_Notify_title_dash_u :
    ∃ c, Desktop.Notify {} (fun _ => none) "-u" "critical" ⟨[], []⟩ = some ⟨[c], []⟩
      ∧ c.arg = ["-a", "Hyprvoice", "-u", "critical"]
      ∧ "-u" ∈ c.arg :=
  ⟨⟨"notify-send", ["-a", "Hyprvoice", "-u", "critical"]⟩, by decide, rfl, by decide⟩

/-- C7: every Desktop operation returns normally, runs its command once, and
writes to the log exactly one line "Failed to send <kind>notification: <e>" when
the command fails with cause `e`, and nothing when it succeeds; kind is
"persistent " for `PersistentNotify`, `RecordingStarted` and `Transcribing`,
"completion " for `RecordingComplete`, "error " for `Error` and empty for
`Notify`. -/
theorem Desktop_run_failure_logged_once (d : Desktop) (run : Runner) (w : World)
    (msg title message : String) (replaceID : Int) :
    (∃ c, d.Error run msg w = some ⟨w.commands ++ [c],
        match run c with
        | some e => w.log ++ ["Failed to send error notification: " ++ e]
        | none => w.log⟩)
    ∧ (∃ c, d.Notify run title message w = some ⟨w.commands ++ [c],
        match run c with
        | some e => w.log ++ ["Failed to send notification: " ++ e]
        | none => w.log⟩)
    ∧ (∃ c, d.RecordingStarted run w = some ⟨w.commands ++ [c],
        match run c with
        | some e => w.log ++ ["Failed to send persistent notification: " ++ e]
        | none => w.log⟩)
    ∧ (∃ c, d.Transcribing run w = some ⟨w.commands ++ [c],
        match run c with
        | some e => w.log ++ ["Failed to send persistent notification: " ++ e]
        | none => w.log⟩)
    ∧ (∃ c, d.RecordingComplete run w = some ⟨w.commands ++ [c],
        match run c with
        | some e => w.log ++ ["Failed to send completion notification: " ++ e]
        | none => w.log⟩)
    ∧ (∃ c, d.PersistentNotify run title message replaceID w = some ⟨w.commands ++ [c],
        match run c with
        | some e => w.log ++ ["Failed to send persistent notification: " ++ e]
        | none => w.log⟩) :=
  ⟨⟨_, Desktop_Error_result d run msg w⟩,
   ⟨_, Desktop_Notify_result d run title message w⟩,
   ⟨_, Desktop_PersistentNotify_result d run _ _ _ w⟩,
   ⟨_, Desktop_PersistentNotify_result d run _ _ _ w⟩,
   ⟨_, Desktop_RecordingComplete_result d run w⟩,
   ⟨_, Desktop_PersistentNotify_result d run title message replaceID w⟩⟩

/-- C10: every Desktop operation runs exactly one external command per call,
the program is "notify-send", and its argument list begins with "-a",
"Hyprvoice", whatever the caller passes. -/
theorem Desktop_runs_notify_send_once (d : Desktop) (run : Runner) (w : World)
    (msg title message : String) (replaceID : Int) :
    (∃ w1 c, d.Error run msg w = some w1 ∧ w1.commands = w.commands ++ [c]
        ∧ c.name = "notify-send" ∧ c.arg.take 2 = ["-a", "Hyprvoice"])
    ∧ (∃ w1 c, d.Notify run title message w = some w1 ∧ w1.commands = w.commands ++ [c]
        ∧ c.name = "notify-send" ∧ c.arg.take 2 = ["-a", "Hyprvoice"])
    ∧ (∃ w1 c, d.RecordingStarted run w = some w1 ∧ w1.commands = w.commands ++ [c]
        ∧ c.name = "notify-send" ∧ c.arg.take 2 = ["-a", "Hyprvoice"])
    ∧ (∃ w1 c, d.Transcribing run w = some w1 ∧ w1.commands = w.commands ++ [c]
        ∧ c.name = "notify-send" ∧ c.arg.take 2 = ["-a", "Hyprvoice"])
    ∧ (∃ w1 c, d.RecordingComplete run w = some w1 ∧ w1.commands = w.commands ++ [c]
        ∧ c.name = "notify-send" ∧ c.arg.take 2 = ["-a", "Hyprvoice"])
    ∧ (∃ w1 c, d.PersistentNotify run title message replaceID w = some w1 ∧ w1.commands = w.commands ++ [c]
        ∧ c.name = "notify-send" ∧ c.arg.take 2 = ["-a", "Hyprvoice"]) :=
  ⟨⟨_, _, Desktop_Error_result d run msg w, rfl, rfl, rfl⟩,
   ⟨_, _, Desktop_Notify_result d run title message w, rfl, rfl, rfl⟩,
   ⟨_, _, Desktop_PersistentNotify_result d run _ _ _ w, rfl, rfl, rfl⟩,
   ⟨_, _, Desktop_PersistentNotify_result d run _ _ _ w, rfl, rfl, rfl⟩,
   ⟨_, _, Desktop_RecordingComplete_result d run w, rfl, rfl, rfl⟩,
   ⟨_, _, Desktop_PersistentNotify_result d run title message replaceID w, rfl, rfl, rfl⟩⟩

/-! ## The Log variant -/

/-- C8: every Log operation writes exactly one log entry `title: message` and
runs no command. `Notify` writes its title, ": " and its message for all
strings, a percent sign or a colon in them included; `Error` writes
"Hyprvoice Error: " and the message; the three lifecycle operations write the
title and body that the Desktop variant passes to `notify-send` as its last two
arguments. -/
theorem Log_writes_title_colon_message (l : Log) (w : World) (T M X : String)
    (d : Desktop) (run : Runner) :
    l.Notify T M w = some ⟨w.commands, w.log ++ [T ++ ": " ++ M]⟩
    ∧ l.Error X w = some ⟨w.commands, w.log ++ ["Hyprvoice Error: " ++ X]⟩
    ∧ l.RecordingStarted w = some ⟨w.commands, w.log ++ ["Hyprvoice: 🎤 Recording..."]⟩
    ∧ l.Transcribing w = some ⟨w.commands, w.log ++ ["Hyprvoice: ⏳ Transcribing..."]⟩
    ∧ l.RecordingComplete w = some ⟨w.commands, w.log ++ ["Hyprvoice: ✅ Complete"]⟩
    ∧ l.Notify "100%s" "a: %d%" w = some ⟨w.commands, w.log ++ ["100%s: a: %d%"]⟩
    ∧ (∃ w1 opts, d.RecordingStarted run w = some w1 ∧ w1.commands = w.commands ++
        [⟨"notify-send", opts ++ ["Hyprvoice", "🎤 Recording..."]⟩])
    ∧ (∃ w2 opts, d.Transcribing run w = some w2 ∧ w2.commands = w.commands ++
        [⟨"notify-send", opts ++ ["Hyprvoice", "⏳ Transcribing..."]⟩])
    ∧ (∃ w3 opts, d.RecordingComplete run w = some w3 ∧ w3.commands = w.commands ++
        [⟨"notify-send", opts ++ ["Hyprvoice", "✅ Complete"]⟩]) := by
  refine ⟨Log_Notify_result l T M w, ?_, ?_, ?_, ?_, ?_, ?_, ?_, ?_⟩
  · exact (Log_Notify_result l "Hyprvoice Error" X w).trans (by
      have h : "Hyprvoice Error" ++ ": " ++ X = "Hyprvoice Error: " ++ X := by
        rw [show "Hyprvoice Error" ++ ": " = "Hyprvoice Error: " from by decide]
      rw [h])
  · exact Log_Notify_result l "Hyprvoice" "🎤 Recording..." w
  · exact Log_Notify_result l "Hyprvoice" "⏳ Transcribing..." w
  · exact Log_Notify_result l "Hyprvoice" "✅ Complete" w
  · exact Log_Notify_result l "100%s" "a: %d%" w
  · exact ⟨_, ["-a", "Hyprvoice", "-r", formatInt RecordingNotificationID, "-t", "0"],
      Desktop_PersistentNotify_result d run _ _ _ w, rfl⟩
  · exact ⟨_, ["-a", "Hyprvoice", "-r", formatInt RecordingNotificationID, "-t", "0"],
      Desktop_PersistentNotify_result d run _ _ _ w, rfl⟩
  · exact ⟨_, ["-a", "Hyprvoice", "-r", "9999", "-t", "5000"],
      Desktop_RecordingComplete_result d run w, rfl⟩

/-! ## The Nop variant -/

/-- C9: each of the five Nop operations, on every input, leaves the world (the
record of commands run and the log) exactly as it was: no command is run and no
log line is written. -/
theorem Nop_leaves_world_unchanged (n : Nop) (w : World) (msg title message : String) :
    n.Error msg w = w
    ∧ n.Notify title message w = w
    ∧ n.RecordingStarted w = w
    ∧ n.Transcribing w = w
    ∧ n.RecordingComplete w = w
    ∧ (n.Error msg w).commands = w.commands ∧ (n.Error msg w).log = w.log
    ∧ (n.Notify title message w).commands = w.commands
    ∧ (n.Notify title message w).log = w.log :=
  ⟨rfl, rfl, rfl, rfl, rfl, rfl, rfl, rfl, rfl⟩

end Notify
